import Mathlib

/-!
Shallow embedding of `homework.py` (a Telegram homework-status polling bot).

Python values flowing through the program (decoded JSON payloads, the poll
cursor, homework records) are modelled by the `Value` type below; Python
exceptions by `PyError`; fallible Python functions by `Except PyError`.
The network and the Telegram transport are external effects: each cycle the
environment supplies an `HttpResult` (what `requests.get` did) and a
`SendOutcome` (what `bot.send_message` did), and the embedded functions are
deterministic in those inputs.
-/

/-- A Python/JSON value: `None`, booleans, integers, strings, lists and
(string-keyed) dicts, as delivered by `response.json()`. -/
inductive Value where
  | null
  | bool (b : Bool)
  | int (n : Int)
  | str (s : String)
  | list (xs : List Value)
  | dict (fields : List (String × Value))

/-- Python exceptions raised by `homework.py`, tagged with the class used at
each raise site and the message argument. -/
inductive PyError where
  | typeError (msg : String)
  | keyError (msg : String)
  | indexError (msg : String)
  | connectionError (msg : String)
  | exceptionError (msg : String)
  | telegramError (msg : String)
  | attributeError (msg : String)

/-- Python type name of a value, as it appears in runtime error messages. -/
def pyTypeName : Value → String
  | .null => "NoneType"
  | .bool _ => "bool"
  | .int _ => "int"
  | .str _ => "str"
  | .list _ => "list"
  | .dict _ => "dict"

mutual

/-- Python `repr` of a value (the rendering `str` falls back to for
non-string values, e.g. inside f-strings). Quote-escaping corner cases of
string contents are not needed by any input considered here. -/
def pyRepr : Value → String
  | .null => "None"
  | .bool true => "True"
  | .bool false => "False"
  | .int n => toString n
  | .str s => "\x27" ++ s ++ "\x27"
  | .list xs => "[" ++ String.intercalate ", " (pyReprList xs) ++ "]"
  | .dict fs => "\x7b" ++ String.intercalate ", " (pyReprFields fs) ++ "\x7d"

/-- `repr` of each element of a Python list. -/
def pyReprList : List Value → List String
  | [] => []
  | v :: vs => pyRepr v :: pyReprList vs

/-- `repr` of each `key: value` entry of a Python dict. -/
def pyReprFields : List (String × Value) → List String
  | [] => []
  | (k, v) :: fs => ("\x27" ++ k ++ "\x27: " ++ pyRepr v) :: pyReprFields fs

end

/-- Python `str` of a value (f-string interpolation). -/
def pyStr : Value → String
  | .str s => s
  | v => pyRepr v

/-- Python truthiness (`if homeworks:`). -/
def isTruthy : Value → Bool
  | .null => false
  | .bool b => b
  | .int n => n != 0
  | .str s => s != ""
  | .list xs => !xs.isEmpty
  | .dict fs => !fs.isEmpty

/-- Whether a value is hashable in Python (lists and dicts are not); an
unhashable value used in a dict-membership test raises `TypeError`. -/
def isHashable : Value → Bool
  | .list _ => false
  | .dict _ => false
  | _ => true

/-- Python `str(error)`: for `KeyError` the single argument is shown via its
`repr` (so a message string gains surrounding quotes); for the other classes
raised here it is the plain message. -/
def describe : PyError → String
  | .typeError m => m
  | .keyError m => "\x27" ++ m ++ "\x27"
  | .indexError m => m
  | .connectionError m => m
  | .exceptionError m => m
  | .telegramError m => m
  | .attributeError m => m

/-- Python `dict.get(key)`: the value under `key`, or `None` when absent.
Only ever applied to dict values in the embedded program. -/
def pyGet (v : Value) (key : String) : Value :=
  match v with
  | .dict fs => (List.lookup key fs).getD .null
  | _ => .null

/-- `RETRY_PERIOD = 600` — the fixed sleep between cycles (seconds). -/
def RETRY_PERIOD : Nat := 600

/-- `ENDPOINT` — the fixed API URL. -/
def ENDPOINT : String := "https://practicum.yandex.ru/api/user_api/homework_statuses/"

/-- `HEADERS` — the auth header built from `PRACTICUM_TOKEN` (an `os.getenv`
result, hence possibly `None`, which an f-string renders as "None"). -/
def HEADERS (practicum_token : Option String) : List (String × String) :=
  [("Authorization", "OAuth " ++ (practicum_token.getD "None"))]

/-- `HOMEWORK_VERDICTS` — the fixed verdict table, a module-level constant. -/
def HOMEWORK_VERDICTS : List (String × String) :=
  [("approved", "Работа проверена: ревьюеру всё понравилось. Ура!"),
   ("reviewing", "Работа взята на проверку ревьюером."),
   ("rejected", "Работа проверена: у ревьюера есть замечания.")]

/-- `check_tokens()`: true iff every one of the three environment-supplied
credentials `is not None`. The three globals are `os.getenv` results, hence
`Option String`; an empty string is a set variable, not `None`. -/
def check_tokens (practicum_token telegram_token telegram_chat_id : Option String) : Bool :=
  [practicum_token, telegram_token, telegram_chat_id].all fun value => value.isSome

/-- What the HTTP transport did for this cycle's `requests.get` call:
either the call itself raised, or it produced a status code and a decoded
JSON body. -/
inductive HttpResult where
  | failure
  | response (status : Nat) (body : Value)

/-- The query parameters `{'from_date': timestamp}` of the GET request. -/
def request_params (timestamp : Value) : Value :=
  .dict [("from_date", timestamp)]

/-- `get_api_answer(current_timestamp)`: a raising `requests.get` becomes
`ConnectionError("Проблемы с подключением к серверу")`; a status code other
than `HTTPStatus.OK` (= 200) becomes a bare `Exception` whose message embeds
`ENDPOINT` and the status code; otherwise the decoded body is returned
verbatim. -/
def get_api_answer (current_timestamp : Value) (net : HttpResult) : Except PyError Value :=
  let _params := request_params current_timestamp
  match net with
  | .failure => .error (.connectionError "Проблемы с подключением к серверу")
  | .response status body =>
    if status ≠ 200 then
      .error (.exceptionError
        ("Эндпоинт " ++ ENDPOINT ++ " недоступен. Код ответа API: " ++ toString status))
    else
      .ok body

/-- `check_response(response)`: TypeError when the response is not a dict;
KeyError when `homeworks` or `current_date` is absent; TypeError when the
`homeworks` value is not a list; then `homeworks[0]` — which on an empty
list raises `IndexError("list index out of range")`. -/
def check_response (response : Value) : Except PyError Value :=
  match response with
  | .dict fields =>
    if (List.lookup "homeworks" fields).isNone || (List.lookup "current_date" fields).isNone then
      .error (.keyError "Некорректный ответ от API - в словаре отсутствует необходимый ключ")
    else
      match List.lookup "homeworks" fields with
      | some (.list homeworks) =>
        match homeworks with
        | [] => .error (.indexError "list index out of range")
        | first :: _ => .ok first
      | _ =>
        .error (.typeError "Некорректный ответ от API - \"homeworks\" должен иметь тип list")
  | _ => .error (.typeError "Некорректный ответ от API - ожидался словарь")

/-- `parse_status(homework)`: KeyError when `homework_name` is absent from
`homework.keys()`; then KeyError when `status` is absent; then the dict
membership test `status not in HOMEWORK_VERDICTS` — KeyError for a hashable
value that is not a key of the table, `TypeError` (unhashable) for a list or
dict value; on success the formatted message. A non-dict argument has no
`.keys()` and raises `AttributeError`. -/
def parse_status (homework : Value) : Except PyError String :=
  match homework with
  | .dict fields =>
    if (List.lookup "homework_name" fields).isNone then
      .error (.keyError
        "Некорректный ответ от API - в словаре отсутствует ключ \"homework_name\"")
    else
      let homework_name := (List.lookup "homework_name" fields).getD .null
      if (List.lookup "status" fields).isNone then
        .error (.keyError
          "Некорректный ответ от API - в словаре отсутствует ключ \"status\"")
      else
        match (List.lookup "status" fields).getD .null with
        | .str s =>
          match List.lookup s HOMEWORK_VERDICTS with
          | some verdict =>
            .ok ("Изменился статус проверки работы \"" ++ pyStr homework_name ++ "\". " ++ verdict)
          | none =>
            .error (.keyError
              "Некорректный ответ от API - недокументированный статус домашней работы")
        | .list _ => .error (.typeError "unhashable type: \x27list\x27")
        | .dict _ => .error (.typeError "unhashable type: \x27dict\x27")
        | _ =>
          .error (.keyError
            "Некорректный ответ от API - недокументированный статус домашней работы")
  | v =>
    .error (.attributeError
      ("\x27" ++ pyTypeName v ++ "\x27 object has no attribute \x27keys\x27"))

/-- Severity of a log line. -/
inductive LogLevel where
  | debug
  | info
  | error
deriving DecidableEq

/-- One emitted log line. -/
structure LogRecord where
  level : LogLevel
  text : String

/-- What the Telegram transport did for one `bot.send_message` call: the
library signals failure by raising `telegram.error.TelegramError`. -/
inductive SendOutcome where
  | success
  | telegramError (description : String)

/-- The `bot.send_message(...)` call inside `send_message`. -/
def bot_send_message (outcome : SendOutcome) : Except PyError Unit :=
  match outcome with
  | .success => .ok ()
  | .telegramError d => .error (.telegramError d)

/-- `send_message(bot, message)`: logs at info, attempts the send; catches
only `telegram.error.TelegramError`, logging it at error and returning
normally; any other exception class would propagate (the `.error` arm) —
but `bot.send_message` only fails with `TelegramError`. -/
def send_message (outcome : SendOutcome) (message : String) : Except PyError (List LogRecord) :=
  let infoLog : LogRecord := ⟨.info, "Бот отправил сообщение: " ++ message⟩
  match bot_send_message outcome with
  | .ok _ => .ok [infoLog, ⟨.debug, "Бот отправил сообщение: " ++ message⟩]
  | .error (.telegramError d) =>
    .ok [infoLog, ⟨.error, "Ошибка при отправке сообщения: " ++ d⟩]
  | .error e => .error e

/-- Log lines produced by a `send_message` call; the unreachable propagation
arm (see `send_message_never_raises`) contributes none. -/
def send_logs (outcome : SendOutcome) (message : String) : List LogRecord :=
  match send_message outcome message with
  | .ok logs => logs
  | .error _ => []

/-- The loop's mutable state: `current_timestamp` (the poll cursor — a
`Value`, since `main` assigns it from `response.get("current_date")`) and
`previous_message` (the last-sent message, for deduplication). -/
structure LoopState where
  current_timestamp : Value
  previous_message : String

/-- What one iteration of `main`'s `try` block computed before the
notify/cursor bookkeeping: an exception from fetch, validation or
translation; a falsy first record (`else: logger.debug(...)`); or a new
status message together with the response. -/
inductive CycleOutcome where
  | failed (e : PyError)
  | noRecord (response : Value)
  | newStatus (response : Value) (message : String)

/-- Steps 1–3 of one loop iteration: `get_api_answer`, `check_response`,
and — when the first record is truthy — `parse_status`. -/
def cycle_outcome (net : HttpResult) (st : LoopState) : CycleOutcome :=
  match get_api_answer st.current_timestamp net with
  | .error e => .failed e
  | .ok response =>
    match check_response response with
    | .error e => .failed e
    | .ok homeworks =>
      if isTruthy homeworks then
        match parse_status homeworks with
        | .error e => .failed e
        | .ok message => .newStatus response message
      else
        .noRecord response

/-- Result of one full loop iteration: the new state, the messages passed to
`send_message`, and the loop's own log lines. -/
structure CycleResult where
  state : LoopState
  sent : List String
  logs : List LogRecord

/-- Bookkeeping `main` performs once the try-body outcome is known.
Success path: when a truthy record yields a message differing from
`previous_message`, send it and update `previous_message`; a falsy record
only logs at debug; either way `current_timestamp =
response.get("current_date")`. Except path: `message = f"Сбой в работе
программы: {error}"`, logged at error, sent subject to the same
deduplication; the cursor is left unchanged. -/
def main_react (co : CycleOutcome) (outcome : SendOutcome) (st : LoopState) : CycleResult :=
  match co with
  | .failed e =>
    let message := "Сбой в работе программы: " ++ describe e
    if message = st.previous_message then
      ⟨st, [], [⟨.error, message⟩]⟩
    else
      ⟨⟨st.current_timestamp, message⟩, [message],
        ⟨.error, message⟩ :: send_logs outcome message⟩
  | .noRecord response =>
    ⟨⟨pyGet response "current_date", st.previous_message⟩, [],
      [⟨.debug, "В ответе отсутствует новый статус"⟩]⟩
  | .newStatus response message =>
    if message = st.previous_message then
      ⟨⟨pyGet response "current_date", st.previous_message⟩, [], []⟩
    else
      ⟨⟨pyGet response "current_date", message⟩, [message], send_logs outcome message⟩

/-- One iteration of `main`'s `while True` body: run steps 1–3, then react. -/
def main_cycle (net : HttpResult) (outcome : SendOutcome) (st : LoopState) : CycleResult :=
  main_react (cycle_outcome net st) outcome st

/-- The notification message a try-body outcome carries, if any: the
translated status on the success path, the failure message on the except
path, none when the first record is falsy. -/
def message_of (co : CycleOutcome) : Option String :=
  match co with
  | .failed e => some ("Сбой в работе программы: " ++ describe e)
  | .noRecord _ => none
  | .newStatus _ message => some message

/-- The notification message a cycle computes, if any. -/
def cycle_message (net : HttpResult) (st : LoopState) : Option String :=
  message_of (cycle_outcome net st)

/-- `main`'s startup gate: with `check_tokens()` false it logs critical and
raises `SystemExit("Программа принудительно остановлена.")`; otherwise the
loop starts. -/
def main_startup (practicum_token telegram_token telegram_chat_id : Option String) :
    Except String Unit :=
  if check_tokens practicum_token telegram_token telegram_chat_id then
    .ok ()
  else
    .error "Программа принудительно остановлена."

/-- Test fixture: a well-formed response with one approved homework. -/
def respA : Value :=
  .dict [("homeworks", .list [.dict [("homework_name", .str "hw"), ("status", .str "approved")]]),
         ("current_date", .int 1)]

/-- Test fixture: a well-formed response whose `homeworks` list is empty. -/
def emptyResp : Value :=
  .dict [("homeworks", .list []), ("current_date", .int 1000)]

/-- Test fixture: a response whose `current_date` is `None` and whose first
homework record is the empty (hence falsy) dict. -/
def respNull : Value :=
  .dict [("homeworks", .list [.dict []]), ("current_date", .null)]

theorem send_message_never_raises (outcome : SendOutcome) (message : String) :
    ∃ logs, send_message outcome message = .ok logs := by
  cases outcome <;> exact ⟨_, rfl⟩

theorem main_react_sent_eq (co : CycleOutcome) (o : SendOutcome) (st : LoopState) :
    (main_react co o st).sent =
      match message_of co with
      | none => []
      | some m => if m = st.previous_message then [] else [m] := by
  cases co with
  | failed e =>
    by_cases h : ("Сбой в работе программы: " ++ describe e) = st.previous_message <;>
      simp [main_react, message_of, h]
  | noRecord r => rfl
  | newStatus r m =>
    by_cases h : m = st.previous_message <;> simp [main_react, message_of, h]

theorem main_cycle_sent_eq (net : HttpResult) (o : SendOutcome) (st : LoopState) :
    (main_cycle net o st).sent =
      match cycle_message net st with
      | none => []
      | some m => if m = st.previous_message then [] else [m] :=
  main_react_sent_eq (cycle_outcome net st) o st

theorem main_react_prev_of_message (co : CycleOutcome) (o : SendOutcome) (st : LoopState)
    (m : String) (h : message_of co = some m) :
    (main_react co o st).state.previous_message = m := by
  cases co with
  | failed e =>
    injection h with h
    subst h
    by_cases hd : ("Сбой в работе программы: " ++ describe e) = st.previous_message <;>
      simp [main_react, hd]
  | noRecord r => exact absurd h (by simp [message_of])
  | newStatus r m' =>
    injection h with h
    subst h
    by_cases hd : m' = st.previous_message <;> simp [main_react, hd]

theorem main_cycle_prev_of_message (net : HttpResult) (o : SendOutcome) (st : LoopState)
    (m : String) (h : cycle_message net st = some m) :
    (main_cycle net o st).state.previous_message = m :=
  main_react_prev_of_message (cycle_outcome net st) o st m h

/-- C1: the claim says an empty `homeworks` sequence yields a "no record"
non-error outcome, no notification, and a cursor advanced to
`current_date`. The code instead executes `homeworks[0]` on the empty list:
`check_response` raises `IndexError`, the loop takes the except path,
notifies the failure message, and leaves the cursor unchanged. This theorem
evaluates the embedded code at the failing input. -/
theorem claim_C1_empty_homeworks_cycle :
    check_response emptyResp = .error (.indexError "list index out of range") ∧
    (main_cycle (.response 200 emptyResp) .success ⟨.int 100, ""⟩).state.current_timestamp
      = .int 100 ∧
    (main_cycle (.response 200 emptyResp) .success ⟨.int 100, ""⟩).sent
      = ["Сбой в работе программы: list index out of range"] ∧
    (main_cycle (.response 200 emptyResp) .success ⟨.int 100, ""⟩).state.previous_message
      = "Сбой в работе программы: list index out of range" :=
  ⟨rfl, rfl, rfl, rfl⟩

/-- C2: any exception from the fetch / validation / translation steps makes
the loop build `"Сбой в работе программы: " ++ str(error)`, notify it
subject to the same deduplication rule as success messages (updating the
last-sent message when it notifies), and leave the cursor unchanged. -/
theorem claim_C2_exception_path (net : HttpResult) (o : SendOutcome) (st : LoopState)
    (e : PyError) (h : cycle_outcome net st = .failed e) :
    (main_cycle net o st).state.current_timestamp = st.current_timestamp ∧
    (("Сбой в работе программы: " ++ describe e) ≠ st.previous_message →
      (main_cycle net o st).sent = ["Сбой в работе программы: " ++ describe e] ∧
      (main_cycle net o st).state.previous_message
        = "Сбой в работе программы: " ++ describe e) ∧
    (("Сбой в работе программы: " ++ describe e) = st.previous_message →
      (main_cycle net o st).sent = []) := by
  unfold main_cycle
  rw [h]
  by_cases hd : ("Сбой в работе программы: " ++ describe e) = st.previous_message <;>
    simp [main_react, hd]

/-- Witness for C2: a transport failure at cursor 5 and empty last-sent
message notifies the connectivity failure text and keeps the cursor at 5. -/
theorem claim_C2_witness :
    (main_cycle .failure .success ⟨.int 5, ""⟩).state.current_timestamp = .int 5 ∧
    (main_cycle .failure .success ⟨.int 5, ""⟩).sent
      = ["Сбой в работе программы: Проблемы с подключением к серверу"] := by
  have h := claim_C2_exception_path .failure .success ⟨.int 5, ""⟩
      (.connectionError "Проблемы с подключением к серверу") rfl
  exact ⟨h.1, (h.2.1 (by decide)).1⟩

/-- C4: `check_response` fails with TypeError ("expected a mapping") on a
non-dict; then with KeyError when `homeworks` or `current_date` is absent;
then with TypeError when the `homeworks` value is not a list — in that
order (the KeyError fires for a missing key even when `homeworks` is
present with a non-list value). -/
theorem claim_C4_check_response_order :
    (∀ r : Value, (∀ fs, r ≠ .dict fs) →
      check_response r = .error (.typeError "Некорректный ответ от API - ожидался словарь")) ∧
    (∀ fs, (List.lookup "homeworks" fs = none ∨ List.lookup "current_date" fs = none) →
      check_response (.dict fs)
        = .error (.keyError "Некорректный ответ от API - в словаре отсутствует необходимый ключ")) ∧
    (∀ fs hv, List.lookup "homeworks" fs = some hv →
      (List.lookup "current_date" fs).isSome = true →
      (∀ xs, hv ≠ .list xs) →
      check_response (.dict fs)
        = .error (.typeError "Некорректный ответ от API - \"homeworks\" должен иметь тип list")) := by
  refine ⟨?_, ?_, ?_⟩
  · intro r h
    cases r <;> first | rfl | exact absurd rfl (h _)
  · intro fs h
    rcases h with h | h <;> simp [check_response, h]
  · intro fs hv h1 h2 h3
    have h2x : (List.lookup "current_date" fs).isNone = false := by
      rcases hcd : List.lookup "current_date" fs with _ | w
      · rw [hcd] at h2
        exact absurd h2 (by simp)
      · rfl
    cases hv <;> first
      | exact absurd rfl (h3 _)
      | simp [check_response, h1, h2x]

/-- Witness for C4: the three failure shapes at concrete inputs. -/
theorem claim_C4_witness :
    check_response (.int 0)
      = .error (.typeError "Некорректный ответ от API - ожидался словарь") ∧
    check_response (.dict [("current_date", .int 1)])
      = .error (.keyError "Некорректный ответ от API - в словаре отсутствует необходимый ключ") ∧
    check_response (.dict [("homeworks", .str "x"), ("current_date", .int 1)])
      = .error (.typeError "Некорректный ответ от API - \"homeworks\" должен иметь тип list") :=
  ⟨claim_C4_check_response_order.1 (.int 0) (fun _ h => Value.noConfusion h),
   claim_C4_check_response_order.2.1 _ (Or.inl rfl),
   claim_C4_check_response_order.2.2 _ (.str "x") rfl rfl (fun _ h => Value.noConfusion h)⟩

/-- C5: `get_api_answer` maps a raising transport to
`ConnectionError("Проблемы с подключением к серверу")`, a non-200 status to
an `Exception` whose message embeds `ENDPOINT` and the status code, and
otherwise returns the decoded body verbatim with no schema check. -/
theorem claim_C5_get_api_answer (ts : Value) :
    get_api_answer ts .failure
      = .error (.connectionError "Проблемы с подключением к серверу") ∧
    (∀ status body, status ≠ 200 →
      get_api_answer ts (.response status body)
        = .error (.exceptionError
            ("Эндпоинт " ++ ENDPOINT ++ " недоступен. Код ответа API: " ++ toString status))) ∧
    (∀ body, get_api_answer ts (.response 200 body) = .ok body) := by
  refine ⟨rfl, ?_, fun body => rfl⟩
  intro status body h
  simp [get_api_answer, h]

/-- Witness for C5: the three branches at concrete inputs (status 503 for
the non-200 case). -/
theorem claim_C5_witness :
    get_api_answer (.int 0) .failure
      = .error (.connectionError "Проблемы с подключением к серверу") ∧
    get_api_answer (.int 0) (.response 503 .null)
      = .error (.exceptionError
          ("Эндпоинт " ++ ENDPOINT ++ " недоступен. Код ответа API: " ++ toString 503)) ∧
    get_api_answer (.int 0) (.response 200 (.str "body")) = .ok (.str "body") :=
  ⟨(claim_C5_get_api_answer (.int 0)).1,
   (claim_C5_get_api_answer (.int 0)).2.1 503 .null (by decide),
   (claim_C5_get_api_answer (.int 0)).2.2 (.str "body")⟩

/-- C3: when two consecutive cycles compute the same message and it differs
from the last-sent message going in, exactly one notification results: the
first cycle notifies and updates the last-sent message, the second is
suppressed by the exact-equality comparison. -/
theorem claim_C3_dedup (net1 net2 : HttpResult) (o1 o2 : SendOutcome) (st : LoopState)
    (m : String)
    (h1 : cycle_message net1 st = some m)
    (hne : m ≠ st.previous_message)
    (h2 : cycle_message net2 (main_cycle net1 o1 st).state = some m) :
    (main_cycle net1 o1 st).sent = [m] ∧
    (main_cycle net1 o1 st).state.previous_message = m ∧
    (main_cycle net2 o2 (main_cycle net1 o1 st).state).sent = [] := by
  have hprev := main_cycle_prev_of_message net1 o1 st m h1
  refine ⟨?_, hprev, ?_⟩
  · rw [main_cycle_sent_eq, h1]
    simp [hne]
  · rw [main_cycle_sent_eq, h2]
    simp [hprev]

/-- Witness for C3: two identical successful cycles over `respA`; the first
sends the approved-status message, the second sends nothing. -/
theorem claim_C3_witness :
    (main_cycle (.response 200 respA) .success ⟨.int 0, ""⟩).sent
      = ["Изменился статус проверки работы \"hw\". Работа проверена: ревьюеру всё понравилось. Ура!"] ∧
    (main_cycle (.response 200 respA) .success
        (main_cycle (.response 200 respA) .success ⟨.int 0, ""⟩).state).sent = [] := by
  have h := claim_C3_dedup (.response 200 respA) (.response 200 respA) .success .success
      ⟨.int 0, ""⟩
      "Изменился статус проверки работы \"hw\". Работа проверена: ревьюеру всё понравилось. Ура!"
      rfl (by decide) rfl
  exact ⟨h.1, h.2.2⟩

/-- C6 counterexample: a record whose `status` value is a (Python-unhashable)
list is "present but not one of the three values", yet the membership test
`status not in HOMEWORK_VERDICTS` raises `TypeError: unhashable type`, not
the KeyError of the undocumented-status branch the claim describes. -/
theorem claim_C6_counterexample :
    parse_status (.dict [("homework_name", .str "hw"), ("status", .list [])])
      = .error (.typeError "unhashable type: \x27list\x27") ∧
    parse_status (.dict [("homework_name", .str "hw"), ("status", .list [])])
      ≠ .error (.keyError "Некорректный ответ от API - недокументированный статус домашней работы") :=
  ⟨rfl, by intro h; injection h with h2; exact PyError.noConfusion h2⟩

/-- C6 (amended): translation fails with KeyError when `homework_name` is
absent (checked first, regardless of `status`); then with KeyError when
`status` is absent; then, for a present hashable `status` value that is not
one of the three table keys, with the undocumented-status KeyError; a
sequence or mapping `status` value instead fails the membership test itself
with `TypeError` (unhashable). -/
theorem claim_C6_amended :
    (∀ fs, List.lookup "homework_name" fs = none →
      parse_status (.dict fs) = .error (.keyError
        "Некорректный ответ от API - в словаре отсутствует ключ \"homework_name\"")) ∧
    (∀ fs nv, List.lookup "homework_name" fs = some nv →
      List.lookup "status" fs = none →
      parse_status (.dict fs) = .error (.keyError
        "Некорректный ответ от API - в словаре отсутствует ключ \"status\"")) ∧
    (∀ fs nv v, List.lookup "homework_name" fs = some nv →
      List.lookup "status" fs = some v →
      isHashable v = true →
      (∀ s, v = .str s → List.lookup s HOMEWORK_VERDICTS = none) →
      parse_status (.dict fs) = .error (.keyError
        "Некорректный ответ от API - недокументированный статус домашней работы")) ∧
    (∀ fs nv xs, List.lookup "homework_name" fs = some nv →
      List.lookup "status" fs = some (.list xs) →
      parse_status (.dict fs) = .error (.typeError "unhashable type: \x27list\x27")) ∧
    (∀ fs nv gs, List.lookup "homework_name" fs = some nv →
      List.lookup "status" fs = some (.dict gs) →
      parse_status (.dict fs) = .error (.typeError "unhashable type: \x27dict\x27")) := by
  refine ⟨?_, ?_, ?_, ?_, ?_⟩
  · intro fs h
    simp [parse_status, h]
  · intro fs nv h1 h2
    simp [parse_status, h1, h2]
  · intro fs nv v h1 h2 hh hs
    cases v with
    | str s => simp [parse_status, h1, h2, hs s rfl]
    | list xs => exact absurd hh (by simp [isHashable])
    | dict gs => exact absurd hh (by simp [isHashable])
    | null => simp [parse_status, h1, h2]
    | bool b => simp [parse_status, h1, h2]
    | int n => simp [parse_status, h1, h2]
  · intro fs nv xs h1 h2
    simp [parse_status, h1, h2]
  · intro fs nv gs h1 h2
    simp [parse_status, h1, h2]

/-- Witness for C6 (amended): the four failure shapes at concrete records. -/
theorem claim_C6_witness :
    parse_status (.dict [("status", .str "approved")])
      = .error (.keyError "Некорректный ответ от API - в словаре отсутствует ключ \"homework_name\"") ∧
    parse_status (.dict [("homework_name", .str "hw")])
      = .error (.keyError "Некорректный ответ от API - в словаре отсутствует ключ \"status\"") ∧
    parse_status (.dict [("homework_name", .str "hw"), ("status", .str "unknown")])
      = .error (.keyError "Некорректный ответ от API - недокументированный статус домашней работы") ∧
    parse_status (.dict [("homework_name", .str "hw"), ("status", .dict [])])
      = .error (.typeError "unhashable type: \x27dict\x27") := by
  refine ⟨claim_C6_amended.1 _ rfl,
    claim_C6_amended.2.1 _ _ rfl rfl,
    claim_C6_amended.2.2.1 _ _ _ rfl rfl rfl ?_,
    claim_C6_amended.2.2.2.2 _ _ _ rfl rfl⟩
  intro s hs
  injection hs with h
  subst h
  rfl

/-- C7: a record with a string `homework_name` and a `status` among
approved / reviewing / rejected translates to exactly
`Изменился статус проверки работы "…". …`, the name followed by the verdict, with the
verdict drawn from `HOMEWORK_VERDICTS`, a fixed closed table of exactly the
three entries (a constant no operation mutates). -/
theorem claim_C7_format (fs : List (String × Value)) (name s : String)
    (hn : List.lookup "homework_name" fs = some (.str name))
    (hs : List.lookup "status" fs = some (.str s))
    (h3 : s = "approved" ∨ s = "reviewing" ∨ s = "rejected") :
    parse_status (.dict fs)
      = .ok ("Изменился статус проверки работы \"" ++ name ++ "\". "
          ++ (List.lookup s HOMEWORK_VERDICTS).getD "") ∧
    (List.lookup s HOMEWORK_VERDICTS).isSome = true ∧
    HOMEWORK_VERDICTS.length = 3 ∧
    HOMEWORK_VERDICTS.map Prod.fst = ["approved", "reviewing", "rejected"] := by
  have hv : (List.lookup s HOMEWORK_VERDICTS).isSome = true := by
    rcases h3 with rfl | rfl | rfl <;> rfl
  obtain ⟨verdict, hverd⟩ := Option.isSome_iff_exists.mp hv
  refine ⟨?_, hv, rfl, rfl⟩
  simp [parse_status, hn, hs, hverd, pyStr]

/-- Witness for C7: the end-to-end scenario record
`{"homework_name": "proj1", "status": "approved"}`. -/
theorem claim_C7_witness :
    parse_status (.dict [("homework_name", .str "proj1"), ("status", .str "approved")])
      = .ok "Изменился статус проверки работы \"proj1\". Работа проверена: ревьюеру всё понравилось. Ура!" := by
  have h := claim_C7_format [("homework_name", .str "proj1"), ("status", .str "approved")]
      "proj1" "approved" rfl rfl (Or.inl rfl)
  exact h.1

/-- C8: the notifier is best-effort: for every send outcome it returns
normally (the `except telegram.error.TelegramError` clause covers every
failure mode of `bot.send_message`), on failure it logs at error level, and
a send failure never changes the loop's state or notification decisions —
so it is never itself notified about. -/
theorem claim_C8_notify_best_effort :
    (∀ o m, ∃ logs, send_message o m = .ok logs) ∧
    (∀ d m, send_message (.telegramError d) m
      = .ok [⟨.info, "Бот отправил сообщение: " ++ m⟩,
             ⟨.error, "Ошибка при отправке сообщения: " ++ d⟩]) ∧
    (∀ net o st, (main_cycle net o st).state = (main_cycle net .success st).state ∧
      (main_cycle net o st).sent = (main_cycle net .success st).sent) := by
  refine ⟨fun o m => ?_, fun d m => rfl, fun net o st => ?_⟩
  · cases o <;> exact ⟨_, rfl⟩
  · unfold main_cycle
    cases hco : cycle_outcome net st with
    | failed e =>
      by_cases h : ("Сбой в работе программы: " ++ describe e) = st.previous_message <;>
        simp [main_react, h]
    | noRecord r => exact ⟨rfl, rfl⟩
    | newStatus r m =>
      by_cases h : m = st.previous_message <;> simp [main_react, h]

/-- C9: `check_response` checks only the presence of `current_date`, never
its type (its verdict is unchanged under replacing the `current_date` value
by anything), and a cycle that reaches the success path assigns the cursor
directly from `response.get("current_date")` — so a non-integer value there
becomes the new cursor, which is then not an integer. -/
theorem claim_C9_cursor_type_unchecked (net : HttpResult) (o : SendOutcome) (st : LoopState)
    (r hw v : Value)
    (hnet : get_api_answer st.current_timestamp net = .ok r)
    (hchk : check_response r = .ok hw)
    (hpath : isTruthy hw = false ∨ ∃ m, parse_status hw = .ok m)
    (hdate : pyGet r "current_date" = v)
    (hni : ∀ n : Int, v ≠ .int n) :
    (∀ hws w w2, check_response (.dict [("homeworks", .list hws), ("current_date", w)])
      = check_response (.dict [("homeworks", .list hws), ("current_date", w2)])) ∧
    (main_cycle net o st).state.current_timestamp = v ∧
    (∀ n : Int, (main_cycle net o st).state.current_timestamp ≠ .int n) := by
  have hco : cycle_outcome net st = .noRecord r ∨
      ∃ m, cycle_outcome net st = .newStatus r m := by
    unfold cycle_outcome
    simp only [hnet, hchk]
    rcases hpath with h | ⟨m, hm⟩
    · left
      simp [h]
    · by_cases ht : isTruthy hw = true
      · right
        exact ⟨m, by simp [ht, hm]⟩
      · left
        simp [Bool.not_eq_true] at ht
        simp [ht]
  have hcur : (main_cycle net o st).state.current_timestamp = v := by
    unfold main_cycle
    rcases hco with hco | ⟨m, hco⟩ <;> rw [hco]
    · simpa [main_react] using hdate
    · by_cases h : m = st.previous_message <;> simpa [main_react, h] using hdate
  refine ⟨fun hws w w2 => rfl, hcur, ?_⟩
  rw [hcur]
  exact hni

/-- Witness for C9: a structurally valid response whose `current_date` is
`None` (and whose first record is the falsy empty dict) leaves the loop with
a `None` cursor. -/
theorem claim_C9_witness :
    (main_cycle (.response 200 respNull) .success ⟨.int 42, ""⟩).state.current_timestamp
      = .null :=
  (claim_C9_cursor_type_unchecked (.response 200 respNull) .success ⟨.int 42, ""⟩
    respNull (.dict []) .null rfl rfl (Or.inl rfl) rfl
    (fun _ h => Value.noConfusion h)).2.1

/-- C10: `check_tokens` tests only `is not None`: it returns true exactly
when all three variables are set, so three set-but-empty strings pass the
startup gate and the loop starts with empty credentials. -/
theorem claim_C10_empty_string_tokens :
    (∀ p t c : Option String,
      check_tokens p t c = true ↔ (p.isSome = true ∧ t.isSome = true ∧ c.isSome = true)) ∧
    check_tokens (some "") (some "") (some "") = true ∧
    main_startup (some "") (some "") (some "") = .ok () := by
  refine ⟨fun p t c => ?_, rfl, rfl⟩
  simp [check_tokens, and_assoc]
